import Mathlib

/-!
Verification of the kv-gateway service (src/app/main.py): a FastAPI facade
over a Redis store that validates 32-character hexadecimal keys/values,
proxies CRUD and bulk writes, and aggregates statistics.

The Python handlers are shallowly embedded as Lean functions.  The Redis
store is an external collaborator: point reads/writes are modelled by an
association-list state (newest binding first), while calls whose responses
are opaque to the gateway (exists/delete counts, info sections, scan
counts) are modelled as explicit response values handed to the handler,
with transport failures (redis.exceptions.RedisError) represented by an
`Except.error ()` response or a fault flag.  Python ints are ℤ/ℕ and
float arithmetic in the statistics handlers is modelled exactly over ℚ.
-/

namespace KVGW

/-! ### Characters and strings

Embeddings of the pieces of Python string semantics the handlers use:
the regex `HEX_128_RE = ^[A-Fa-f0-9]{32}$` (fullmatch), `str.lower()` and
`str.strip()` restricted to the ASCII range the regex admits. -/

/-- Membership in the regex character class `[A-Fa-f0-9]`. -/
def isHexChar (c : Char) : Bool :=
  ('A' ≤ c && c ≤ 'F') || ('a' ≤ c && c ≤ 'f') || ('0' ≤ c && c ≤ '9')

/-- Lowercase hex character: `[a-f0-9]`. -/
def isLowerHexChar (c : Char) : Bool :=
  ('a' ≤ c && c ≤ 'f') || ('0' ≤ c && c ≤ '9')

/-- Embedding of `HEX_128_RE.fullmatch(s)` succeeding: exactly 32
characters, each in `[A-Fa-f0-9]`. -/
def hex128Match (s : String) : Bool :=
  s.length == 32 && s.data.all isHexChar

/-- Canonical form per the spec glossary: exactly 32 lowercase hex
characters. -/
def isCanonical (s : String) : Bool :=
  s.length == 32 && s.data.all isLowerHexChar

/-- Embedding of Python `str.lower()` (agrees with it on the ASCII inputs
the handlers feed it). -/
def pyLower (s : String) : String :=
  ⟨s.data.map Char.toLower⟩

/-- Characters removed by Python `str.strip()`: exactly those with
`str.isspace()` true — `\t\n\v\f\r` (0x09-0x0d), the ASCII separators
and space (0x1c-0x20), next-line 0x85, no-break space 0xa0, Ogham space
0x1680, the Zs block 0x2000-0x200a, line/paragraph separators
0x2028/0x2029, narrow no-break 0x202f, medium mathematical 0x205f and
ideographic space 0x3000. -/
def pyWS (c : Char) : Bool :=
  (9 ≤ c.toNat && c.toNat ≤ 13) || (28 ≤ c.toNat && c.toNat ≤ 32) ||
  c.toNat == 133 || c.toNat == 160 || c.toNat == 5760 ||
  (8192 ≤ c.toNat && c.toNat ≤ 8202) || c.toNat == 8232 || c.toNat == 8233 ||
  c.toNat == 8239 || c.toNat == 8287 || c.toNat == 12288

/-- Embedding of Python `str.strip()`: drop leading and trailing
whitespace. -/
def pyStrip (s : String) : String :=
  ⟨((s.data.dropWhile pyWS).reverse.dropWhile pyWS).reverse⟩

theorem toNat_ofNatAux (n : Nat) (h : n.isValidChar) :
    (Char.ofNatAux n h).toNat = n := rfl

theorem char_eq_of_toNat {a b : Char} (h : a.toNat = b.toNat) : a = b := by
  apply Char.ext
  exact UInt32.toNat.inj h

theorem toNat_toLower (c : Char) :
    (Char.toLower c).toNat =
      if 65 ≤ c.toNat ∧ c.toNat ≤ 90 then c.toNat + 32 else c.toNat := by
  show (if c.toNat ≥ 65 ∧ c.toNat ≤ 90 then Char.ofNat (c.toNat + 32) else c).toNat = _
  split <;> rename_i h
  · have hv : (c.toNat + 32).isValidChar := by
      left
      have h2 := h.2
      omega
    rw [Char.ofNat, dif_pos hv, toNat_ofNatAux]
  · rfl

theorem isHexChar_iff (c : Char) : isHexChar c = true ↔
    (65 ≤ c.toNat ∧ c.toNat ≤ 70) ∨ (97 ≤ c.toNat ∧ c.toNat ≤ 102) ∨
    (48 ≤ c.toNat ∧ c.toNat ≤ 57) := by
  show (decide (65 ≤ c.toNat) && decide (c.toNat ≤ 70) ||
        (decide (97 ≤ c.toNat) && decide (c.toNat ≤ 102)) ||
        (decide (48 ≤ c.toNat) && decide (c.toNat ≤ 57))) = true ↔ _
  simp [or_assoc]

theorem isLowerHexChar_iff (c : Char) : isLowerHexChar c = true ↔
    (97 ≤ c.toNat ∧ c.toNat ≤ 102) ∨ (48 ≤ c.toNat ∧ c.toNat ≤ 57) := by
  show (decide (97 ≤ c.toNat) && decide (c.toNat ≤ 102) ||
        (decide (48 ≤ c.toNat) && decide (c.toNat ≤ 57))) = true ↔ _
  simp

theorem isLowerHexChar_toLower (c : Char) (h : isHexChar c = true) :
    isLowerHexChar (Char.toLower c) = true := by
  rw [isLowerHexChar_iff, toNat_toLower]
  rw [isHexChar_iff] at h
  split <;> omega

theorem isHexChar_of_lower (c : Char) (h : isLowerHexChar c = true) :
    isHexChar c = true := by
  rw [isHexChar_iff]
  rw [isLowerHexChar_iff] at h
  omega

theorem toLower_of_lower (c : Char) (h : isLowerHexChar c = true) :
    Char.toLower c = c := by
  apply char_eq_of_toNat
  rw [toNat_toLower]
  rw [isLowerHexChar_iff] at h
  split <;> omega

theorem toLower_toLower (c : Char) (h : isHexChar c = true) :
    Char.toLower (Char.toLower c) = Char.toLower c :=
  toLower_of_lower _ (isLowerHexChar_toLower c h)

theorem length_pyLower (s : String) : (pyLower s).length = s.length := by
  show (s.data.map Char.toLower).length = s.data.length
  exact List.length_map s.data Char.toLower

theorem isCanonical_pyLower (s : String) (h : hex128Match s = true) :
    isCanonical (pyLower s) = true := by
  rw [hex128Match, Bool.and_eq_true] at h
  rw [isCanonical, Bool.and_eq_true, length_pyLower]
  refine ⟨h.1, ?_⟩
  rw [List.all_eq_true] at h ⊢
  intro c hc
  have hc2 : c ∈ s.data.map Char.toLower := hc
  rw [List.mem_map] at hc2
  obtain ⟨d, hd, rfl⟩ := hc2
  exact isLowerHexChar_toLower d (h.2 d hd)

theorem hex128Match_of_canonical (s : String) (h : isCanonical s = true) :
    hex128Match s = true := by
  rw [isCanonical, Bool.and_eq_true] at h
  rw [hex128Match, Bool.and_eq_true]
  refine ⟨h.1, ?_⟩
  rw [List.all_eq_true] at h ⊢
  intro c hc
  exact isHexChar_of_lower c (h.2 c hc)

theorem pyLower_of_canonical (s : String) (h : isCanonical s = true) :
    pyLower s = s := by
  rw [isCanonical, Bool.and_eq_true, List.all_eq_true] at h
  show String.mk (s.data.map Char.toLower) = s
  have : s.data.map Char.toLower = s.data := by
    have := List.map_congr_left (l := s.data) (f := Char.toLower) (g := id)
      (fun c hc => toLower_of_lower c (h.2 c hc))
    rw [this, List.map_id]
  rw [this]

theorem pyLower_pyLower (s : String) (h : hex128Match s = true) :
    pyLower (pyLower s) = pyLower s :=
  pyLower_of_canonical _ (isCanonical_pyLower s h)

theorem hex128Match_pyLower (s : String) (h : hex128Match s = true) :
    hex128Match (pyLower s) = true :=
  hex128Match_of_canonical _ (isCanonical_pyLower s h)

theorem dropWhile_of_none {l : List Char} (h : ∀ c ∈ l, pyWS c = false) :
    l.dropWhile pyWS = l := by
  apply List.dropWhile_eq_self_iff.2
  intro hl
  have hm : l.get ⟨0, hl⟩ ∈ l := l.get_mem 0 hl
  rw [h _ hm]
  exact Bool.false_ne_true

theorem pyStrip_of_no_ws (s : String) (h : ∀ c ∈ s.data, pyWS c = false) :
    pyStrip s = s := by
  show String.mk _ = s
  rw [dropWhile_of_none h]
  rw [dropWhile_of_none (fun c hc => h c (List.mem_reverse.1 hc))]
  rw [List.reverse_reverse]

theorem hexChar_not_ws (c : Char) (h : isHexChar c = true) : pyWS c = false := by
  rw [isHexChar_iff] at h
  rw [pyWS]
  simp only [Bool.or_eq_false_iff, Bool.and_eq_false_iff,
    beq_eq_false_iff_ne, decide_eq_false_iff_not, ne_eq, not_le]
  omega

theorem pyStrip_of_hex (s : String) (h : hex128Match s = true) :
    pyStrip s = s := by
  apply pyStrip_of_no_ws
  rw [hex128Match, Bool.and_eq_true, List.all_eq_true] at h
  intro c hc
  exact hexChar_not_ws c (h.2 c hc)

/-- Spec-side alphabet: the characters the spec allows, `[0-9a-fA-F]`,
written out as the spec words them rather than as range comparisons. -/
def hexAlphabet : List Char :=
  "0123456789abcdefABCDEF".data

theorem mem_of_toNat_mem (c : Char) (l : List Char)
    (h : c.toNat ∈ l.map Char.toNat) : c ∈ l := by
  induction l with
  | nil => simp at h
  | cons d t ih =>
    rw [List.map_cons, List.mem_cons] at h
    rcases h with h | h
    · exact List.mem_cons.2 (Or.inl (char_eq_of_toNat h))
    · exact List.mem_cons.2 (Or.inr (ih h))

theorem isHexChar_iff_mem (c : Char) :
    isHexChar c = true ↔ c ∈ hexAlphabet := by
  constructor
  · intro h
    apply mem_of_toNat_mem
    have hmap : hexAlphabet.map Char.toNat =
        [48, 49, 50, 51, 52, 53, 54, 55, 56, 57, 97, 98, 99, 100, 101, 102,
         65, 66, 67, 68, 69, 70] := by decide
    rw [hmap]
    rw [isHexChar_iff] at h
    simp only [List.mem_cons, List.not_mem_nil, or_false]
    omega
  · intro h
    fin_cases h <;> decide

/-! ### Error model

The HTTPException statuses the handlers raise, named as in the spec's
error-handling design (section 7). -/

/-- Error kinds raised by the gateway, with their HTTP status codes. -/
inductive Err where
  | invalidFormat
  | emptyPayload
  | notFound
  | deleteMismatch
  | storeUnavailable
  deriving DecidableEq, Repr

/-- HTTP status code of each error kind, as raised in main.py. -/
def Err.status : Err → Nat
  | .invalidFormat => 400
  | .emptyPayload => 400
  | .notFound => 404
  | .deleteMismatch => 500
  | .storeUnavailable => 503

/-! ### Validator -/

/-- A Python value as seen by `normalize_hex`: either a `str` or some
non-string object (the `isinstance(value, str)` check only distinguishes
these two cases). -/
inductive PyObj where
  | str (s : String)
  | nonStr
  deriving DecidableEq, Repr

/-- Embedding of `normalize_hex` (main.py lines 25-28): raise
HTTP 400 unless the input is a string fully matching `HEX_128_RE`,
otherwise return `value.lower()`. -/
def normalize_hex : PyObj → Except Err String
  | .str s => if hex128Match s then .ok (pyLower s) else .error .invalidFormat
  | .nonStr => .error .invalidFormat

theorem normalize_hex_ok (s : String) (h : hex128Match s = true) :
    normalize_hex (.str s) = .ok (pyLower s) := by
  rw [normalize_hex, if_pos h]

theorem normalize_hex_err (s : String) (h : hex128Match s = false) :
    normalize_hex (.str s) = .error .invalidFormat := by
  rw [normalize_hex, if_neg (by rw [h]; exact Bool.false_ne_true)]

theorem normalize_hex_canonical (v : PyObj) (t : String)
    (h : normalize_hex v = .ok t) : isCanonical t = true := by
  match v with
  | .nonStr => exact absurd h (by rw [normalize_hex]; exact fun hc => Except.noConfusion hc)
  | .str s =>
    rw [normalize_hex] at h
    by_cases hm : hex128Match s = true
    · rw [if_pos hm] at h
      cases h
      exact isCanonical_pyLower s hm
    · rw [if_neg hm] at h
      exact absurd h (fun hc => Except.noConfusion hc)

/-! ### Store model

Redis point state is an association list, newest binding first; `SET`
prepends, `GET` finds the newest binding.  `StoreCall` records every
command the gateway hands to the store transport, which is what the
canonical-form invariant (spec section 3) quantifies over. -/

/-- In-memory model of the Redis keyspace. -/
def Store := List (String × String)

/-- Embedding of `redis_client.set(key, value)` on the modelled state. -/
def redisSet (st : Store) (k v : String) : Store :=
  (k, v) :: st

/-- Embedding of `redis_client.get(key)` on the modelled state. -/
def redisGet : Store → String → Option String
  | [], _ => none
  | (k, v) :: rest, key => if k = key then some v else redisGet rest key

/-- A command submitted to the store transport, with its arguments. -/
inductive StoreCall where
  | setC (k v : String)
  | getC (k : String)
  | existsC (k : String)
  | delC (k : String)
  deriving DecidableEq, Repr

/-- The canonical-form invariant for one store command: every key and
value argument is exactly 32 lowercase hex characters. -/
def callCanonical : StoreCall → Prop
  | .setC k v => isCanonical k = true ∧ isCanonical v = true
  | .getC k => isCanonical k = true
  | .existsC k => isCanonical k = true
  | .delC k => isCanonical k = true

/-! ### Core endpoints (main.py lines 235-298)

Each handler returns its HTTP-level outcome together with the list of
commands it submitted to the store transport; a `fault` flag (or
`Except.error ()` response value) stands for redis.exceptions.RedisError
raised by the corresponding client call. -/

/-- Embedding of `put_value` (PUT /{key}, lines 235-246): normalize the
path key, decode and strip the request body, normalize it, then issue a
single SET.  Success is the 201 response. -/
def put_value (key : String) (rawBody : String) (setFault : Bool) (st : Store) :
    Except Err Unit × Store × List StoreCall :=
  match normalize_hex (.str key) with
  | .error e => (.error e, st, [])
  | .ok k =>
    match normalize_hex (.str (pyStrip rawBody)) with
    | .error e => (.error e, st, [])
    | .ok v =>
      if setFault then (.error .storeUnavailable, st, [.setC k v])
      else (.ok (), redisSet st k v, [.setC k v])

/-- Embedding of `get_value` (GET /{key}, lines 249-261): normalize the
key, issue a GET, map a missing value to 404. -/
def get_value (key : String) (getFault : Bool) (st : Store) :
    Except Err String × List StoreCall :=
  match normalize_hex (.str key) with
  | .error e => (.error e, [])
  | .ok k =>
    if getFault then (.error .storeUnavailable, [.getC k])
    else
      match redisGet st k with
      | none => (.error .notFound, [.getC k])
      | some v => (.ok v, [.getC k])

/-- Embedding of `delete_value` (DELETE /{key}, lines 264-298).  The
EXISTS and DEL calls observe the live store, which other clients may
mutate between the two calls, so their responses are supplied as oracle
values: `Except.error ()` is a RedisError, `Except.ok n` the returned
count.  Python falsiness of the EXISTS count is `= 0`; a DEL count other
than 1 after a successful EXISTS is the 500 path. -/
def delete_value (key : String) (existsResp delResp : Except Unit Nat) :
    Except Err Unit × List StoreCall :=
  match normalize_hex (.str key) with
  | .error e => (.error e, [])
  | .ok k =>
    match existsResp with
    | .error _ => (.error .storeUnavailable, [.existsC k])
    | .ok 0 => (.error .notFound, [.existsC k])
    | .ok (_ + 1) =>
      match delResp with
      | .error _ => (.error .storeUnavailable, [.existsC k, .delC k])
      | .ok 1 => (.ok (), [.existsC k, .delC k])
      | .ok _ => (.error .deleteMismatch, [.existsC k, .delC k])

/-! ### Bulk endpoint (main.py lines 47-64)

redis-py pipelines buffer commands client-side; nothing is put on the
wire before `pipe.execute()`.  The validation loop therefore completes
over the whole payload before any store submission: `buildPipe` models
the loop (normalize each pair, buffer a SET), and `bulk_put` submits the
buffer only if the whole loop succeeded. -/

/-- The `for raw_key, raw_value in payload.items()` loop: normalize both
components of each pair in order, buffering `pipe.set(key, value)`; the
first malformed pair aborts the request. -/
def buildPipe : List (String × PyObj) → Except Err (List (String × String))
  | [] => .ok []
  | (rawKey, rawValue) :: rest =>
    match normalize_hex (.str rawKey) with
    | .error e => .error e
    | .ok k =>
      match normalize_hex rawValue with
      | .error e => .error e
      | .ok v =>
        match buildPipe rest with
        | .error e => .error e
        | .ok buf => .ok ((k, v) :: buf)

/-- Embedding of `bulk_put` (POST /bulk): empty-payload check, the
validation/buffering loop, then `pipe.execute()` (modelled as applying
every buffered SET, or failing wholesale when `execFault`).  JSON object
keys are always strings; values may be arbitrary JSON, hence `PyObj`. -/
def bulk_put (payload : List (String × PyObj)) (execFault : Bool) (st : Store) :
    Except Err Nat × Store × List StoreCall :=
  if payload.isEmpty then (.error .emptyPayload, st, [])
  else
    match buildPipe payload with
    | .error e => (.error e, st, [])
    | .ok buf =>
      if execFault then
        (.error .storeUnavailable, st, buf.map fun p => .setC p.1 p.2)
      else
        (.ok payload.length, buf.foldl (fun s p => redisSet s p.1 p.2) st,
         buf.map fun p => .setC p.1 p.2)

/-! ### Statistics endpoints (main.py lines 132-229)

INFO responses are mappings whose fields may be absent (`info.get`
returns None), so each field is an `Option`.  Python's `round(x, 2)`
rounds half to even; it is modelled exactly over ℚ. -/

/-- Round half to even (Python's `round` tie-breaking rule). -/
def roundHalfEven (q : ℚ) : ℤ :=
  if q - ⌊q⌋ < 1 / 2 then ⌊q⌋
  else if 1 / 2 < q - ⌊q⌋ then ⌊q⌋ + 1
  else if 2 ∣ ⌊q⌋ then ⌊q⌋ else ⌊q⌋ + 1

/-- Embedding of Python `round(x, 2)` over exact rationals. -/
def pyRound2 (q : ℚ) : ℚ :=
  (roundHalfEven (q * 100) : ℚ) / 100

/-- The fields of `redis_client.info("stats")` the handlers read. -/
structure StatsInfo where
  total_connections_received : Option Nat
  total_commands_processed : Option Nat
  instantaneous_ops_per_sec : Option Nat
  total_net_input_bytes : Option Nat
  total_net_output_bytes : Option Nat
  keyspace_hits : Option Nat
  keyspace_misses : Option Nat
  deriving DecidableEq, Repr

/-- The hit-rate expression shared by both statistics handlers:
`round(info.get("keyspace_hits", 0) / max(1, hits + misses) * 100, 2)`. -/
def hitRateOf (info : StatsInfo) : ℚ :=
  pyRound2 (((info.keyspace_hits.getD 0 : ℚ) /
    ((max 1 (info.keyspace_hits.getD 0 + info.keyspace_misses.getD 0) : ℕ) : ℚ)) * 100)

/-- Response shape of GET /stats/operations. -/
structure OpStats where
  total_connections_received : Option Nat
  total_commands_processed : Option Nat
  instantaneous_ops_per_sec : Option Nat
  total_net_input_bytes : Option Nat
  total_net_output_bytes : Option Nat
  keyspace_hits : Option Nat
  keyspace_misses : Option Nat
  hit_rate : ℚ
  deriving DecidableEq, Repr

/-- Embedding of `get_operation_stats` (GET /stats/operations, lines
132-157): one INFO("stats") call, passthrough fields plus the derived
hit rate; RedisError maps to 503. -/
def get_operation_stats (resp : Except Unit StatsInfo) : Except Err OpStats :=
  match resp with
  | .error _ => .error .storeUnavailable
  | .ok info =>
    .ok { total_connections_received := info.total_connections_received
          total_commands_processed := info.total_commands_processed
          instantaneous_ops_per_sec := info.instantaneous_ops_per_sec
          total_net_input_bytes := info.total_net_input_bytes
          total_net_output_bytes := info.total_net_output_bytes
          keyspace_hits := info.keyspace_hits
          keyspace_misses := info.keyspace_misses
          hit_rate := hitRateOf info }

/-- The fields of `redis_client.info()` (general section) read by
`get_all_stats`. -/
structure GeneralInfo where
  redis_version : Option String
  uptime_in_seconds : Option Int
  uptime_in_days : Option Int
  connected_clients : Option Int
  blocked_clients : Option Int
  server_time_usec : Option Int
  deriving DecidableEq, Repr

/-- The fields of `redis_client.info("memory")` read by
`get_all_stats`. -/
structure MemoryInfo where
  used_memory : Option Int
  used_memory_human : Option String
  used_memory_peak : Option Int
  used_memory_peak_human : Option String
  maxmemory : Option Int
  maxmemory_human : Option String
  mem_fragmentation_ratio : Option ℚ
  deriving DecidableEq, Repr

/-- The `server` group of the GET /stats response. -/
structure ServerGroup where
  redis_version : Option String
  uptime_in_seconds : Option Int
  uptime_in_days : Option Int
  connected_clients : Option Int
  blocked_clients : Option Int
  deriving DecidableEq, Repr

/-- The `memory` group of the GET /stats response. -/
structure MemGroup where
  used_memory : Option Int
  used_memory_human : Option String
  used_memory_peak : Option Int
  used_memory_peak_human : Option String
  maxmemory : Option Int
  maxmemory_human : Option String
  mem_fragmentation_ratio : Option ℚ
  deriving DecidableEq, Repr

/-- The `keys` group of the GET /stats response. -/
structure KeysGroup where
  total_keys : Nat
  hex_keys_count : Nat
  keyspace_hits : Option Nat
  keyspace_misses : Option Nat
  hit_rate_percentage : ℚ
  deriving DecidableEq, Repr

/-- The `operations` group of the GET /stats response. -/
structure OpsGroup where
  total_commands_processed : Option Nat
  instantaneous_ops_per_sec : Option Nat
  total_connections_received : Option Nat
  deriving DecidableEq, Repr

/-- The GET /stats response. -/
structure AllStats where
  server : ServerGroup
  memory : MemGroup
  keys : KeysGroup
  operations : OpsGroup
  timestamp : Option Int
  deriving DecidableEq, Repr

/-- Python `a or b` on optional integers: `None` and `0` are falsy, so
either selects `b`. -/
def pyOrInt : Option Int → Option Int → Option Int
  | none, b => b
  | some 0, b => b
  | some n, _ => some n

/-- Embedding of `get_all_stats` (GET /stats, lines 160-229).  The four
queries inside the outer `try` — INFO(), INFO("memory"), INFO("stats"),
DBSIZE — are consumed in source order; any RedisError among them is the
503 path.  The supplementary SCAN count sits in its own inner
`try`/`except` whose handler replaces the count with the DBSIZE total.
The timestamp is `info.get("server_time_usec") or
info.get("uptime_in_seconds")`. -/
def get_all_stats (general : Except Unit GeneralInfo)
    (memory : Except Unit MemoryInfo) (stats : Except Unit StatsInfo)
    (dbsizeResp : Except Unit Nat) (scanResp : Except Unit Nat) :
    Except Err AllStats :=
  match general with
  | .error _ => .error .storeUnavailable
  | .ok g =>
    match memory with
    | .error _ => .error .storeUnavailable
    | .ok m =>
      match stats with
      | .error _ => .error .storeUnavailable
      | .ok st =>
        match dbsizeResp with
        | .error _ => .error .storeUnavailable
        | .ok total_keys =>
          let hex_keys_count :=
            match scanResp with
            | .ok n => n
            | .error _ => total_keys
          .ok { server := { redis_version := g.redis_version
                            uptime_in_seconds := g.uptime_in_seconds
                            uptime_in_days := g.uptime_in_days
                            connected_clients := g.connected_clients
                            blocked_clients := g.blocked_clients }
                memory := { used_memory := m.used_memory
                            used_memory_human := m.used_memory_human
                            used_memory_peak := m.used_memory_peak
                            used_memory_peak_human := m.used_memory_peak_human
                            maxmemory := m.maxmemory
                            maxmemory_human := m.maxmemory_human
                            mem_fragmentation_ratio := m.mem_fragmentation_ratio }
                keys := { total_keys := total_keys
                          hex_keys_count := hex_keys_count
                          keyspace_hits := st.keyspace_hits
                          keyspace_misses := st.keyspace_misses
                          hit_rate_percentage := hitRateOf st }
                operations := { total_commands_processed := st.total_commands_processed
                                instantaneous_ops_per_sec := st.instantaneous_ops_per_sec
                                total_connections_received := st.total_connections_received }
                timestamp := pyOrInt g.server_time_usec g.uptime_in_seconds }

/-! ### Supporting lemmas -/

/-- Whether `normalize_hex` accepts the object: a string fully matching
the hex regex. -/
def hexOk : PyObj → Bool
  | .str s => hex128Match s
  | .nonStr => false

theorem normalize_hex_err_obj (v : PyObj) (h : hexOk v = false) :
    normalize_hex v = .error .invalidFormat := by
  match v with
  | .nonStr => rfl
  | .str s => exact normalize_hex_err s h

theorem normalize_hex_ok_obj (v : PyObj) (h : hexOk v = true) :
    ∃ t, normalize_hex v = .ok t := by
  match v with
  | .nonStr => exact absurd h Bool.false_ne_true
  | .str s => exact ⟨pyLower s, normalize_hex_ok s h⟩

/-- Spec-side validity condition for `normalize`, worded as in the spec:
a string input of exactly 32 characters, all drawn from the hex
alphabet; non-string inputs are never valid. -/
def specValid : PyObj → Prop
  | .str s => s.length = 32 ∧ ∀ c ∈ s.data, c ∈ hexAlphabet
  | .nonStr => False

instance (v : PyObj) : Decidable (specValid v) :=
  match v with
  | .str s => inferInstanceAs (Decidable (s.length = 32 ∧ ∀ c ∈ s.data, c ∈ hexAlphabet))
  | .nonStr => inferInstanceAs (Decidable False)

theorem hex128Match_iff_spec (s : String) :
    hex128Match s = true ↔ (s.length = 32 ∧ ∀ c ∈ s.data, c ∈ hexAlphabet) := by
  rw [hex128Match, Bool.and_eq_true, beq_iff_eq, List.all_eq_true]
  constructor
  · rintro ⟨h1, h2⟩
    exact ⟨h1, fun c hc => (isHexChar_iff_mem c).1 (h2 c hc)⟩
  · rintro ⟨h1, h2⟩
    exact ⟨h1, fun c hc => (isHexChar_iff_mem c).2 (h2 c hc)⟩

/-- A malformed pair anywhere in the payload aborts the validation loop
with the 400 invalid-format error. -/
theorem buildPipe_invalid : ∀ payload : List (String × PyObj),
    (∃ p ∈ payload, hexOk (.str p.1) = false ∨ hexOk p.2 = false) →
    buildPipe payload = .error .invalidFormat := by
  intro payload hbad
  induction payload with
  | nil => simp at hbad
  | cons hd rest ih =>
    obtain ⟨p, hp, hbadp⟩ := hbad
    rw [List.mem_cons] at hp
    rw [buildPipe]
    by_cases hk : hexOk (.str hd.1) = true
    · obtain ⟨tk, htk⟩ := normalize_hex_ok_obj _ hk
      rw [htk]
      by_cases hv : hexOk hd.2 = true
      · obtain ⟨tv, htv⟩ := normalize_hex_ok_obj _ hv
        rw [htv]
        have hrest : ∃ q ∈ rest, hexOk (.str q.1) = false ∨ hexOk q.2 = false := by
          rcases hp with hp | hp
          · subst hp
            rcases hbadp with hb | hb
            · rw [hk] at hb
              exact absurd hb (by simp)
            · rw [hv] at hb
              exact absurd hb (by simp)
          · exact ⟨p, hp, hbadp⟩
        rw [ih hrest]
      · rw [normalize_hex_err_obj _ (Bool.eq_false_iff.2 hv)]
    · rw [normalize_hex_err_obj _ (Bool.eq_false_iff.2 hk)]

/-- A successfully built pipeline buffer holds only canonical pairs. -/
theorem buildPipe_canonical : ∀ (payload : List (String × PyObj))
    (buf : List (String × String)), buildPipe payload = .ok buf →
    ∀ p ∈ buf, isCanonical p.1 = true ∧ isCanonical p.2 = true := by
  intro payload
  induction payload with
  | nil =>
    intro buf hbuf p hp
    rw [buildPipe] at hbuf
    cases hbuf
    simp at hp
  | cons hd rest ih =>
    intro buf hbuf p hp
    rw [buildPipe] at hbuf
    rcases hk : normalize_hex (.str hd.1) with e | k <;> rw [hk] at hbuf
    · exact absurd hbuf (fun hc => Except.noConfusion hc)
    rcases hv : normalize_hex hd.2 with e | v <;> rw [hv] at hbuf
    · exact absurd hbuf (fun hc => Except.noConfusion hc)
    rcases hr : buildPipe rest with e | tbuf <;> rw [hr] at hbuf
    · exact absurd hbuf (fun hc => Except.noConfusion hc)
    cases hbuf
    rw [List.mem_cons] at hp
    rcases hp with hp | hp
    · subst hp
      exact ⟨normalize_hex_canonical _ _ hk, normalize_hex_canonical _ _ hv⟩
    · exact ih tbuf hr p hp

/-! ### Claim theorems -/

/-- Claim C6: `normalize_hex` succeeds exactly on string inputs of exactly 32
characters drawn from `[0-9a-fA-F]`; on every other input — non-strings,
the empty string, wrong lengths, non-hex characters — it fails with
InvalidFormat (HTTP 400). -/
theorem normalize_hex_classifies (v : PyObj) :
    ((∃ t, normalize_hex v = .ok t) ↔ specValid v) ∧
    (¬ specValid v → normalize_hex v = .error .invalidFormat) ∧
    Err.status .invalidFormat = 400 := by
  refine ⟨?_, ?_, rfl⟩
  · constructor
    · rintro ⟨t, ht⟩
      match v with
      | .nonStr => exact Except.noConfusion ht
      | .str s =>
        rw [normalize_hex] at ht
        by_cases hm : hex128Match s = true
        · exact (hex128Match_iff_spec s).1 hm
        · rw [if_neg hm] at ht
          exact Except.noConfusion ht
    · intro hv
      match v with
      | .str s =>
        exact ⟨pyLower s, normalize_hex_ok s ((hex128Match_iff_spec s).2 hv)⟩
  · intro hv
    match v with
    | .nonStr => rfl
    | .str s =>
      apply normalize_hex_err
      rw [Bool.eq_false_iff]
      intro hm
      exact hv ((hex128Match_iff_spec s).1 hm)

/-- Witness for C6: the empty string is rejected with InvalidFormat. -/
theorem normalize_hex_classifies_witness :
    normalize_hex (.str "") = .error .invalidFormat :=
  (normalize_hex_classifies (.str "")).2.1 (by decide)

/-- Claim C7: on a valid 32-hex string of any letter case, `normalize_hex`
returns the all-lowercase form, and normalization is idempotent:
normalizing the returned canonical form returns it unchanged. -/
theorem normalize_hex_lower_idem (s : String) (h : hex128Match s = true) :
    normalize_hex (.str s) = .ok (pyLower s) ∧
    (∀ t, normalize_hex (.str s) = .ok t → normalize_hex (.str t) = .ok t) := by
  refine ⟨normalize_hex_ok s h, ?_⟩
  intro t ht
  rw [normalize_hex_ok s h] at ht
  cases ht
  rw [normalize_hex_ok _ (hex128Match_pyLower s h), pyLower_pyLower s h]

/-- Witness for C7: a mixed-case hex string normalizes to its lowercase form
and renormalizing that form is the identity. -/
theorem normalize_hex_lower_idem_witness :
    normalize_hex (.str "1234567890ABCDEF1234567890abcdef") =
      .ok (pyLower "1234567890ABCDEF1234567890abcdef") ∧
    normalize_hex (.str (pyLower "1234567890ABCDEF1234567890abcdef")) =
      .ok (pyLower "1234567890ABCDEF1234567890abcdef") :=
  ⟨(normalize_hex_lower_idem "1234567890ABCDEF1234567890abcdef" (by decide)).1,
   (normalize_hex_lower_idem "1234567890ABCDEF1234567890abcdef" (by decide)).2
     (pyLower "1234567890ABCDEF1234567890abcdef")
     (normalize_hex_lower_idem "1234567890ABCDEF1234567890abcdef" (by decide)).1⟩

/-- Claim C1: a bulk payload with any malformed key or value fails with
InvalidFormat (400), the store state is untouched, and no command is
submitted to the store transport — the validation loop completes before
`pipe.execute()`, so the valid pairs in the same payload stay
unwritten. -/
theorem bulk_put_invalid_all_or_none (payload : List (String × PyObj))
    (fault : Bool) (st : Store) (hne : payload ≠ [])
    (hbad : ∃ p ∈ payload, hexOk (.str p.1) = false ∨ hexOk p.2 = false) :
    bulk_put payload fault st = (.error .invalidFormat, st, []) ∧
    Err.status .invalidFormat = 400 := by
  refine ⟨?_, rfl⟩
  rw [bulk_put, if_neg (by simpa using hne), buildPipe_invalid payload hbad]

/-- Witness for C1: one non-string value among two pairs aborts the whole
bulk write with InvalidFormat against an empty store, leaving the store
empty and the transport untouched. -/
theorem bulk_put_invalid_all_or_none_witness :
    bulk_put
      [("11111111111111111111111111111111", .str "aaaaaaaaaaaaaaaaaaaaaaaaaaaaaaaa"),
       ("22222222222222222222222222222222", .nonStr)] false [] =
      (.error .invalidFormat, [], []) ∧
    Err.status .invalidFormat = 400 :=
  bulk_put_invalid_all_or_none _ false []
    (by decide)
    ⟨("22222222222222222222222222222222", .nonStr), by simp, Or.inr rfl⟩

/-- Claim C2: for a valid key, delete checks existence first.  A zero EXISTS
count is NotFound (404) and no DEL is ever issued; EXISTS positive and a
DEL count of exactly one is success; EXISTS positive but a DEL count
other than one is DeleteMismatch (500), not NotFound; a RedisError at
either call is StoreUnavailable (503). -/
theorem delete_value_semantics (key : String) (hk : hex128Match key = true) :
    (∀ d, delete_value key (.ok 0) d =
        (.error .notFound, [.existsC (pyLower key)])) ∧
    (∀ d s, StoreCall.delC s ∉ (delete_value key (.ok 0) d).2) ∧
    (∀ n, delete_value key (.ok (n + 1)) (.ok 1) =
        (.ok (), [.existsC (pyLower key), .delC (pyLower key)])) ∧
    (∀ n d, d ≠ 1 → delete_value key (.ok (n + 1)) (.ok d) =
        (.error .deleteMismatch, [.existsC (pyLower key), .delC (pyLower key)])) ∧
    (∀ d, delete_value key (.error ()) d =
        (.error .storeUnavailable, [.existsC (pyLower key)])) ∧
    (∀ n, delete_value key (.ok (n + 1)) (.error ()) =
        (.error .storeUnavailable, [.existsC (pyLower key), .delC (pyLower key)])) ∧
    Err.status .notFound = 404 ∧ Err.status .deleteMismatch = 500 ∧
    Err.status .storeUnavailable = 503 := by
  have hnorm := normalize_hex_ok key hk
  refine ⟨?_, ?_, ?_, ?_, ?_, ?_, rfl, rfl, rfl⟩
  · intro d
    rw [delete_value, hnorm]
  · intro d s hmem
    rw [delete_value, hnorm] at hmem
    simp at hmem
  · intro n
    rw [delete_value, hnorm]
  · intro n d hd
    rw [delete_value, hnorm]
    match d, hd with
    | 0, _ => rfl
    | Nat.succ (Nat.succ k), _ => rfl
  · intro d
    rw [delete_value, hnorm]
  · intro n
    rw [delete_value, hnorm]

/-- Witness for C2: on a concrete valid key, the NotFound, success,
DeleteMismatch and StoreUnavailable paths behave as stated. -/
theorem delete_value_semantics_witness :
    delete_value "ABCDEFABCDEFABCDEFABCDEFABCDEF12" (.ok 0) (.ok 1) =
      (.error .notFound, [.existsC (pyLower "ABCDEFABCDEFABCDEFABCDEFABCDEF12")]) ∧
    delete_value "ABCDEFABCDEFABCDEFABCDEFABCDEF12" (.ok 1) (.ok 1) =
      (.ok (), [.existsC (pyLower "ABCDEFABCDEFABCDEFABCDEFABCDEF12"),
                .delC (pyLower "ABCDEFABCDEFABCDEFABCDEFABCDEF12")]) ∧
    delete_value "ABCDEFABCDEFABCDEFABCDEFABCDEF12" (.ok 1) (.ok 0) =
      (.error .deleteMismatch,
       [.existsC (pyLower "ABCDEFABCDEFABCDEFABCDEFABCDEF12"),
        .delC (pyLower "ABCDEFABCDEFABCDEFABCDEFABCDEF12")]) ∧
    delete_value "ABCDEFABCDEFABCDEFABCDEFABCDEF12" (.error ()) (.ok 1) =
      (.error .storeUnavailable,
       [.existsC (pyLower "ABCDEFABCDEFABCDEFABCDEFABCDEF12")]) :=
  ⟨(delete_value_semantics _ (by decide)).1 (.ok 1),
   (delete_value_semantics _ (by decide)).2.2.1 0,
   (delete_value_semantics _ (by decide)).2.2.2.1 0 0 (by decide),
   (delete_value_semantics _ (by decide)).2.2.2.2.1 (.ok 1)⟩

/-- Claim C4: writing a valid (possibly mixed-case) value under a valid key
and reading the key back — the key given in any letter case — returns
the all-lowercase form of the value. -/
theorem write_read_roundtrip (k k2 v : String) (st : Store)
    (hk : hex128Match k = true) (hv : hex128Match v = true)
    (hk2 : hex128Match k2 = true) (hsame : pyLower k2 = pyLower k) :
    ∃ st2 tr tr2, put_value k v false st = (.ok (), st2, tr) ∧
      get_value k2 false st2 = (.ok (pyLower v), tr2) := by
  refine ⟨redisSet st (pyLower k) (pyLower v),
    [.setC (pyLower k) (pyLower v)], [.getC (pyLower k)], ?_, ?_⟩
  · rw [put_value, normalize_hex_ok k hk, pyStrip_of_hex v hv,
      normalize_hex_ok v hv]
    rfl
  · rw [get_value, normalize_hex_ok k2 hk2, hsame]
    show (match redisGet (redisSet st (pyLower k) (pyLower v)) (pyLower k) with
      | none => _ | some w => (Except.ok w, _)) = _
    rw [redisSet, redisGet, if_pos rfl]

/-- Witness for C4: the spec scenario — write key
1234567890abcdef1234567890abcdef with the uppercase value, read it back
through the uppercase key spelling, and receive the lowercase value. -/
theorem write_read_roundtrip_witness :
    ∃ st2 tr tr2,
      put_value "1234567890abcdef1234567890abcdef"
        "FEDCBA0987654321FEDCBA0987654321" false [] = (.ok (), st2, tr) ∧
      get_value "1234567890ABCDEF1234567890ABCDEF" false st2 =
        (.ok (pyLower "FEDCBA0987654321FEDCBA0987654321"), tr2) :=
  write_read_roundtrip "1234567890abcdef1234567890abcdef"
    "1234567890ABCDEF1234567890ABCDEF" "FEDCBA0987654321FEDCBA0987654321" []
    (by decide) (by decide) (by decide) (by decide)

/-- Claim C9: the PUT handler strips leading and trailing whitespace from the
decoded body before validating; a body whose trimmed content is a valid
32-hex string passes validation even when the raw body is longer than 32
characters (and thus itself fails the regex), and the lowercased trimmed
value is what reaches the SET command. -/
theorem put_value_strips_body (k raw : String) (st : Store)
    (hk : hex128Match k = true) (htrim : hex128Match (pyStrip raw) = true)
    (hlen : 32 < raw.length) :
    hex128Match raw = false ∧
    put_value k raw false st =
      (.ok (), redisSet st (pyLower k) (pyLower (pyStrip raw)),
       [.setC (pyLower k) (pyLower (pyStrip raw))]) := by
  constructor
  · rw [hex128Match, Bool.and_eq_false_iff]
    left
    rw [beq_eq_false_iff_ne]
    omega
  · rw [put_value, normalize_hex_ok k hk, normalize_hex_ok _ htrim]
    rfl

/-- Witness for C9: a 35-character body padded with the file separator
0x1c, the no-break space 0xa0 and the next-line character 0x85 — all
removed by Python `str.strip()` — is accepted and stored in lowercase
trimmed form although the raw body fails the regex. -/
theorem put_value_strips_body_witness :
    hex128Match "\x1c\xa0FEDCBA0987654321FEDCBA0987654321\x85" = false ∧
    put_value "1234567890abcdef1234567890abcdef"
      "\x1c\xa0FEDCBA0987654321FEDCBA0987654321\x85" false [] =
      (.ok (), redisSet [] (pyLower "1234567890abcdef1234567890abcdef")
        (pyLower (pyStrip "\x1c\xa0FEDCBA0987654321FEDCBA0987654321\x85")),
       [.setC (pyLower "1234567890abcdef1234567890abcdef")
          (pyLower (pyStrip "\x1c\xa0FEDCBA0987654321FEDCBA0987654321\x85"))]) :=
  put_value_strips_body "1234567890abcdef1234567890abcdef"
    "\x1c\xa0FEDCBA0987654321FEDCBA0987654321\x85" []
    (by decide) (by decide) (by decide)

/-- Claim C5: across write, read, delete and bulk write, every key and value
handed to a store command is canonical — exactly 32 lowercase hex
characters — because each is produced by `normalize_hex` before the
store call is issued. -/
theorem store_calls_canonical :
    (∀ key raw fault st, ∀ c ∈ (put_value key raw fault st).2.2, callCanonical c) ∧
    (∀ key fault st, ∀ c ∈ (get_value key fault st).2, callCanonical c) ∧
    (∀ key existsResp delResp,
      ∀ c ∈ (delete_value key existsResp delResp).2, callCanonical c) ∧
    (∀ payload fault st, ∀ c ∈ (bulk_put payload fault st).2.2, callCanonical c) := by
  refine ⟨?_, ?_, ?_, ?_⟩
  · intro key raw fault st c hc
    rw [put_value] at hc
    rcases h1 : normalize_hex (.str key) with e | k <;> rw [h1] at hc
    · simp at hc
    rcases h2 : normalize_hex (.str (pyStrip raw)) with e | v <;> rw [h2] at hc
    · simp at hc
    have hck := normalize_hex_canonical _ _ h1
    have hcv := normalize_hex_canonical _ _ h2
    cases fault <;> simp at hc <;> subst hc <;> exact ⟨hck, hcv⟩
  · intro key fault st c hc
    rw [get_value] at hc
    rcases h1 : normalize_hex (.str key) with e | k <;> rw [h1] at hc
    · simp at hc
    have hck := normalize_hex_canonical _ _ h1
    cases fault
    · rcases h2 : redisGet st k with _ | v <;> simp [h2] at hc <;>
        subst hc <;> exact hck
    · simp at hc
      subst hc
      exact hck
  · intro key existsResp delResp c hc
    rw [delete_value] at hc
    rcases h1 : normalize_hex (.str key) with e | k <;> rw [h1] at hc
    · simp at hc
    have hck := normalize_hex_canonical _ _ h1
    rcases existsResp with u | n
    · simp at hc
      subst hc
      exact hck
    · match n with
      | 0 =>
        simp at hc
        subst hc
        exact hck
      | Nat.succ n =>
        rcases delResp with u | d
        · simp at hc
          rcases hc with hc | hc <;> subst hc <;> exact hck
        · match d with
          | 1 =>
            simp at hc
            rcases hc with hc | hc <;> subst hc <;> exact hck
          | 0 =>
            simp at hc
            rcases hc with hc | hc <;> subst hc <;> exact hck
          | Nat.succ (Nat.succ d) =>
            simp at hc
            rcases hc with hc | hc <;> subst hc <;> exact hck
  · intro payload fault st c hc
    rw [bulk_put] at hc
    by_cases hne : payload.isEmpty = true
    · rw [if_pos hne] at hc
      simp at hc
    rw [if_neg hne] at hc
    rcases hb : buildPipe payload with e | buf <;> rw [hb] at hc
    · simp at hc
    have hcan := buildPipe_canonical payload buf hb
    cases fault <;> simp at hc <;>
      · obtain ⟨a, b, hab, hcab⟩ := hc
        subst hcab
        exact hcan (a, b) hab

/-- Witness for C5: a concrete write issues exactly one SET whose key and
value are canonical. -/
theorem store_calls_canonical_witness :
    callCanonical (.setC (pyLower "1234567890ABCDEF1234567890ABCDEF")
      (pyLower "FEDCBA0987654321FEDCBA0987654321")) :=
  store_calls_canonical.1 "1234567890ABCDEF1234567890ABCDEF"
    "FEDCBA0987654321FEDCBA0987654321" false []
    (.setC (pyLower "1234567890ABCDEF1234567890ABCDEF")
      (pyLower "FEDCBA0987654321FEDCBA0987654321"))
    (by decide)

/-- Claim C3: for reported hit and miss counters, the operations endpoint
returns hit_rate = round(hits / max(1, hits + misses) * 100, 2); when
both counters are present and positive in total this agrees with the
spec formula round(hits / (hits + misses) * 100, 2), when both are zero
the hit rate is 0, and the denominator is never zero. -/
theorem operation_stats_hit_rate (info : StatsInfo) (h m : Nat)
    (hh : info.keyspace_hits = some h) (hm : info.keyspace_misses = some m) :
    ∃ out, get_operation_stats (.ok info) = .ok out ∧
      out.hit_rate = pyRound2 ((h : ℚ) / ((max 1 (h + m) : ℕ) : ℚ) * 100) ∧
      (0 < h + m → out.hit_rate = pyRound2 ((h : ℚ) / ((h : ℚ) + (m : ℚ)) * 100)) ∧
      ((h = 0 ∧ m = 0) → out.hit_rate = 0) ∧
      ((max 1 (h + m) : ℕ) : ℚ) ≠ 0 := by
  have hbase : hitRateOf info =
      pyRound2 ((h : ℚ) / ((max 1 (h + m) : ℕ) : ℚ) * 100) := by
    rw [hitRateOf, hh, hm]
    rfl
  refine ⟨_, rfl, hbase, ?_, ?_, ?_⟩
  · intro hpos
    show hitRateOf info = _
    rw [hbase, Nat.max_eq_right hpos, Nat.cast_add]
  · rintro ⟨rfl, rfl⟩
    show hitRateOf info = 0
    rw [hbase]
    norm_num [pyRound2, roundHalfEven]
  · have h1 : 1 ≤ max 1 (h + m) := Nat.le_max_left _ _
    exact Nat.cast_ne_zero.2 (by omega)

/-- Witness for C3: with 3 hits and 1 miss the endpoint reports a hit rate,
and at 0/0 the rate is 0 with a unit denominator. -/
theorem operation_stats_hit_rate_witness :
    ∃ out, get_operation_stats
        (.ok ⟨none, none, none, none, none, some 3, some 1⟩) = .ok out ∧
      out.hit_rate = pyRound2 ((3 : ℚ) / ((max 1 (3 + 1) : ℕ) : ℚ) * 100) ∧
      (0 < 3 + 1 → out.hit_rate = pyRound2 ((3 : ℚ) / ((3 : ℚ) + (1 : ℚ)) * 100)) ∧
      ((3 = 0 ∧ 1 = 0) → out.hit_rate = 0) ∧
      ((max 1 (3 + 1) : ℕ) : ℚ) ≠ 0 :=
  operation_stats_hit_rate ⟨none, none, none, none, none, some 3, some 1⟩ 3 1 rfl rfl

/-- Claim C8: in the full statistics endpoint, a RedisError in the
supplementary SCAN while the four preceding queries succeeded still
yields a 200 response whose secondary key count equals the DBSIZE total,
whereas a RedisError in any of the four preceding queries fails the
whole call with StoreUnavailable. -/
theorem all_stats_scan_fallback (g : GeneralInfo) (m : MemoryInfo)
    (st : StatsInfo) (n : Nat) :
    (∃ out, get_all_stats (.ok g) (.ok m) (.ok st) (.ok n) (.error ()) = .ok out ∧
      out.keys.hex_keys_count = n ∧ out.keys.total_keys = n) ∧
    (∀ a b c d, get_all_stats (.error ()) a b c d = .error .storeUnavailable) ∧
    (∀ b c d, get_all_stats (.ok g) (.error ()) b c d = .error .storeUnavailable) ∧
    (∀ c d, get_all_stats (.ok g) (.ok m) (.error ()) c d = .error .storeUnavailable) ∧
    (∀ d, get_all_stats (.ok g) (.ok m) (.ok st) (.error ()) d = .error .storeUnavailable) ∧
    Err.status .storeUnavailable = 503 :=
  ⟨⟨_, rfl, rfl, rfl⟩, fun _ _ _ _ => rfl, fun _ _ _ => rfl, fun _ _ => rfl,
   fun _ => rfl, rfl⟩

/-- Claim C10: the timestamp of the full statistics endpoint falls back from
the reported server time to the reported uptime whenever the server time
is Python-falsy — absent or equal to 0 — because the fallback is the
truthiness-based `or`. -/
theorem all_stats_timestamp_truthiness (g : GeneralInfo) (m : MemoryInfo)
    (st : StatsInfo) (n : Nat) (scanResp : Except Unit Nat)
    (hfalsy : g.server_time_usec = none ∨ g.server_time_usec = some 0) :
    ∃ out, get_all_stats (.ok g) (.ok m) (.ok st) (.ok n) scanResp = .ok out ∧
      out.timestamp = g.uptime_in_seconds := by
  refine ⟨_, rfl, ?_⟩
  show pyOrInt g.server_time_usec g.uptime_in_seconds = g.uptime_in_seconds
  rcases hfalsy with hf | hf <;> rw [hf] <;> rfl

/-- Witness for C10: a reported server time of 0 (present but falsy) makes
the timestamp fall back to the reported uptime. -/
theorem all_stats_timestamp_truthiness_witness :
    ∃ out, get_all_stats
        (.ok ⟨none, some 123, none, none, none, some 0⟩)
        (.ok ⟨none, none, none, none, none, none, none⟩)
        (.ok ⟨none, none, none, none, none, none, none⟩)
        (.ok 5) (.ok 5) = .ok out ∧
      out.timestamp = some 123 :=
  all_stats_timestamp_truthiness ⟨none, some 123, none, none, none, some 0⟩
    ⟨none, none, none, none, none, none, none⟩
    ⟨none, none, none, none, none, none, none⟩ 5 (.ok 5) (Or.inr rfl)

end KVGW
